import Mathlib

/-!
Verification of the stateful sequence-block detector in
`check_scoutam.py` (ScoutAM 3.X NRPE check script).

The Python source is shallowly embedded: external command invocations are
modelled as input data (`Except` for exit-code failures, regex match
results as structured values), timestamps and thresholds are integers, and
the persisted JSON state file is modelled by an explicit `Json` tree
together with the encoder (`save_sequence_state`) and decoder
(`load_sequence_state`).
-/

set_option autoImplicit false

namespace ScoutAM

/-- NRPE exit status OK, mirroring `NRPE_EXIT_OK = 0`. -/
def NRPE_EXIT_OK : Nat := 0

/-- NRPE exit status WARNING, mirroring `NRPE_EXIT_WARN = 1`. -/
def NRPE_EXIT_WARN : Nat := 1

/-- NRPE exit status CRITICAL, mirroring `NRPE_EXIT_CRIT = 2`. -/
def NRPE_EXIT_CRIT : Nat := 2

/-- Per-monitor persisted state, the two shapes stored by the script:
`{"status": "not_blocked"}` or
`{"status": "blocked", "blocked_since": t, "inode": i, "reason": r}`.
The inode is kept as the string captured by the regex group `(\d+)`,
because the Python code compares it with string equality. -/
inductive MonitorState where
  | not_blocked : MonitorState
  | blocked (blocked_since : Int) (inode : String) (reason : String) : MonitorState
  deriving DecidableEq, Repr

/-- Whether a monitor state is `blocked` on the given inode; this is the
negation of the source condition
`state[mount][kind].get("status") != "blocked" or state[mount][kind].get("inode") != inode`. -/
def MonitorState.blockedOn : MonitorState → String → Bool
  | .not_blocked, _ => false
  | .blocked _ i _, y => i == y

/-- The inode of a blocked state, if any. -/
def MonitorState.inodeOf : MonitorState → Option String
  | .not_blocked => none
  | .blocked _ i _ => some i

/-- The result of running the two monitor regexes over one filesystem
block's content: `re.search` of `"<Kind> Restart Blocked:\s*(\d+):\s*(.+)"`
yields `blockedMatch` (captured inode and reason), and `re.search` of
`"<Kind> Restart Not Blocked"` yields `notBlockedMatch`. -/
structure MonitorScan where
  blockedMatch : Option (String × String)
  notBlockedMatch : Bool
  deriving DecidableEq, Repr

/-- Monitor kind: the Arfind and Stfind sections of `check_sequences` are
textually identical up to this tag and the threshold arguments used. -/
inductive MonitorKind where
  | arfind
  | stfind
  deriving DecidableEq, Repr

/-- One appended NRPE message line, one constructor per `nrpe_msgs.append`
site of `check_sequences`, carrying the data interpolated into the text. -/
inductive Msg where
  /-- `WARN: Could not determine scheduler node: {error}` -/
  | warnNoScheduler (error : String)
  /-- `OK: Not scheduler node, skipping sequence check (scheduler: {name}), removed stale state file` -/
  | okNotSchedulerRemoved (schedulerName : Option String)
  /-- `OK: Not scheduler node, ... warning: could not remove stale state file` -/
  | okNotSchedulerRemoveFailed (schedulerName : Option String)
  /-- `OK: Not scheduler node, skipping sequence check (scheduler: {name})` -/
  | okNotScheduler (schedulerName : Option String)
  /-- `CRITICAL: Sequence check failed: {error}` -/
  | critSeqCmdFailed (error : String)
  /-- `CRITICAL: {Kind} blocked for {duration}s on {mount} (inode {inode}: {reason})` -/
  | critMonitorBlocked (kind : MonitorKind) (duration : Int) (mount inode reason : String)
  /-- `WARN: {Kind} blocked for {duration}s on {mount} (inode {inode}: {reason})` -/
  | warnMonitorBlocked (kind : MonitorKind) (duration : Int) (mount inode reason : String)
  /-- `OK: {Kind} blocked for {duration}s on {mount} (under threshold)` -/
  | okMonitorBlockedUnder (kind : MonitorKind) (duration : Int) (mount : String)
  /-- `OK: {Kind} not blocked on {mount}` -/
  | okMonitorNotBlocked (kind : MonitorKind) (mount : String)
  /-- `CRITICAL: No filesystems found in sequence output` -/
  | critNoFilesystems
  deriving DecidableEq, Repr

/-- The duration interpolated into a blocked-monitor message, if the
message is one of the three threshold-evaluation lines. -/
def Msg.durationOf : Msg → Option Int
  | .critMonitorBlocked _ d _ _ _ => some d
  | .warnMonitorBlocked _ d _ _ _ => some d
  | .okMonitorBlockedUnder _ d _ => some d
  | _ => none

/-- The duration reported by a monitor evaluation that emitted exactly one
threshold message. -/
def reportedDuration : List Msg → Option Int
  | [m] => m.durationOf
  | _ => none

/-- Result of processing one monitor of one filesystem block: the new
persisted sub-record, the appended messages, and the NRPE status
contribution (combined with `max` by the caller, as in the source). -/
structure MonitorResult where
  next : MonitorState
  msgs : List Msg
  status : Nat
  deriving DecidableEq, Repr

/-- Embedding of the per-monitor logic of `check_sequences`
(lines 647-686 for Arfind, 689-728 for Stfind, identical up to the kind
tag and thresholds): if the blocked regex matched, record a new block (or
keep `blocked_since` when the same inode is still the blocker, updating
only the reason), compute the duration, and classify crit-first; else if
the not-blocked regex matched, force `not_blocked`; else leave the prior
sub-record untouched and append nothing. -/
def processMonitor (kind : MonitorKind) (warnThresh critThresh : Int) (now : Int)
    (mount : String) (prior : MonitorState) (scan : MonitorScan) : MonitorResult :=
  match scan.blockedMatch with
  | some (inode, reason) =>
    let step : MonitorState × Int :=
      if prior.blockedOn inode then
        match prior with
        | .blocked since _ _ => (.blocked since inode reason, now - since)
        | .not_blocked => (.blocked now inode reason, 0)
      else
        (.blocked now inode reason, 0)
    let next := step.1
    let duration := step.2
    if duration ≥ critThresh then
      ⟨next, [.critMonitorBlocked kind duration mount inode reason], NRPE_EXIT_CRIT⟩
    else if duration ≥ warnThresh then
      ⟨next, [.warnMonitorBlocked kind duration mount inode reason], NRPE_EXIT_WARN⟩
    else
      ⟨next, [.okMonitorBlockedUnder kind duration mount], NRPE_EXIT_OK⟩
  | none =>
    if scan.notBlockedMatch then
      ⟨.not_blocked, [.okMonitorNotBlocked kind mount], NRPE_EXIT_OK⟩
    else
      ⟨prior, [], NRPE_EXIT_OK⟩

example :
    processMonitor .arfind 300 600 1000 "/mnt" (.blocked 400 "7" "old") ⟨some ("7", "new"), false⟩
      = ⟨.blocked 400 "7" "new", [.critMonitorBlocked .arfind 600 "/mnt" "7" "new"], 2⟩ := by
  decide

example :
    processMonitor .arfind 300 600 1000 "/mnt" (.blocked 400 "9" "old") ⟨some ("7", "new"), false⟩
      = ⟨.blocked 1000 "7" "new", [.okMonitorBlockedUnder .arfind 0 "/mnt"], 0⟩ := by
  decide

example :
    processMonitor .stfind 300 600 1000 "/mnt" (.blocked 400 "9" "old") ⟨none, false⟩
      = ⟨.blocked 400 "9" "old", [], 0⟩ := by
  decide

example :
    processMonitor .stfind 300 600 1000 "/mnt" (.blocked 400 "9" "old") ⟨none, true⟩
      = ⟨.not_blocked, [.okMonitorNotBlocked .stfind "/mnt"], 0⟩ := by
  decide

/-- Per-filesystem persisted record, the value stored under `state[mount]`:
`{"fsid": ..., "last_check": ..., "current_fs_seq": ..., "arfind": ..., "stfind": ...}`. -/
structure FsRecord where
  fsid : String
  last_check : Int
  current_fs_seq : Option Int
  arfind : MonitorState
  stfind : MonitorState
  deriving DecidableEq, Repr

/-- The persisted state: the Python dict mapping mount path to record,
modelled as an association list in insertion order (Python dicts preserve
insertion order; updating an existing key keeps its position, a new key is
appended). -/
def SeqState : Type := List (String × FsRecord)

instance : DecidableEq SeqState := by unfold SeqState; infer_instance

instance : Repr SeqState := by unfold SeqState; infer_instance

/-- Dict lookup `state[mount]` / `mount in state`. -/
def lookupState : SeqState → String → Option FsRecord
  | [], _ => none
  | (k, v) :: rest, m => if k == m then some v else lookupState rest m

/-- Dict assignment `state[mount] = r`: replace in place if the key is
present, append otherwise. -/
def updateState : SeqState → String → FsRecord → SeqState
  | [], m, r => [(m, r)]
  | (k, v) :: rest, m, r =>
    if k == m then (m, r) :: rest else (k, v) :: updateState rest m r

/-- Dict keys, in order. -/
def keysOf (s : SeqState) : List String := s.map (·.1)

/-- The match data of one filesystem block's body: the two monitor regex
scans and the optional `Current FS Seq:\s*(\d+)` capture. -/
structure BlockContent where
  arfind : MonitorScan
  stfind : MonitorScan
  currentSeq : Option Int
  deriving DecidableEq, Repr

/-- One `fs_regex` match of the diagnostic dump: the `### FSID: <fsid>
Mount: <mount>` header (mount already stripped, as in
`fs_match.group("mount").strip()`) and the scanned body content. -/
structure FsBlock where
  fsid : String
  mount : String
  content : BlockContent
  deriving DecidableEq, Repr

/-- The arguments of the sequences check: the optional `--mount` filter
(argparse yields `None` when absent; the supplied string may be empty,
which Python treats as falsy, i.e. no filtering) and the four integer
thresholds. -/
structure SeqArgs where
  mount : Option String
  arfind_warn : Int
  arfind_crit : Int
  stfind_warn : Int
  stfind_crit : Int
  deriving DecidableEq, Repr

/-- The source's `if args.mount and mount != args.mount: continue`:
a block is skipped exactly when the filter is a non-empty string differing
from the block's mount. -/
def skipBlock (filter : Option String) (mount : String) : Bool :=
  match filter with
  | none => false
  | some f => f ≠ "" && mount ≠ f

/-- Loop accumulator of the per-filesystem loop of `check_sequences`:
the mutated `state` dict, the accumulated `nrpe_msgs`, the running
`nrpe_status`, and the `seen_mounts` set (kept as a list; only membership
is ever used). -/
structure RunAcc where
  state : SeqState
  msgs : List Msg
  status : Nat
  seen : List String
  deriving DecidableEq, Repr

/-- Body of one loop iteration after the mount filter: add the mount to
`seen_mounts`, initialise or update the filesystem record (lines 631-644),
then process the Arfind and Stfind monitors in that order. -/
def processBlockBody (args : SeqArgs) (now : Int) (acc : RunAcc) (b : FsBlock) : RunAcc :=
  let rec0 : FsRecord :=
    match lookupState acc.state b.mount with
    | none =>
      { fsid := b.fsid, last_check := now, current_fs_seq := b.content.currentSeq,
        arfind := .not_blocked, stfind := .not_blocked }
    | some r =>
      { r with fsid := b.fsid, last_check := now, current_fs_seq := b.content.currentSeq }
  let ar := processMonitor .arfind args.arfind_warn args.arfind_crit now b.mount
    rec0.arfind b.content.arfind
  let rec1 := { rec0 with arfind := ar.next }
  let st := processMonitor .stfind args.stfind_warn args.stfind_crit now b.mount
    rec1.stfind b.content.stfind
  let rec2 := { rec1 with stfind := st.next }
  { state := updateState acc.state b.mount rec2,
    msgs := acc.msgs ++ ar.msgs ++ st.msgs,
    status := max (max acc.status ar.status) st.status,
    seen := acc.seen ++ [b.mount] }

/-- One loop iteration: the mount filter is applied before anything else
(in particular before `seen_mounts.add`). -/
def stepBlock (args : SeqArgs) (now : Int) (acc : RunAcc) (b : FsBlock) : RunAcc :=
  if skipBlock args.mount b.mount then acc else processBlockBody args now acc b

/-- The whole per-filesystem loop. -/
def runBlocks (args : SeqArgs) (now : Int) (acc : RunAcc) : List FsBlock → RunAcc
  | [] => acc
  | b :: rest => runBlocks args now (stepBlock args now acc b) rest

/-- The mounts added to `seen_mounts` by a run over the given blocks:
those present in the output that also pass the `--mount` filter. -/
def seenMountsOf (filter : Option String) (blocks : List FsBlock) : List String :=
  (blocks.filter (fun b => !skipBlock filter b.mount)).map (·.mount)

/-- Effect of one `check_sequences` run on the persisted state file. -/
inductive FileEffect where
  /-- The file was neither written nor deleted. -/
  | untouched
  /-- `os.unlink(STATE_FILE)` was attempted and succeeded. -/
  | removed
  /-- The pruned state was written back via `save_sequence_state`. -/
  | written (s : SeqState)
  deriving DecidableEq, Repr

/-- Result of one `check_sequences` run: NRPE status, message lines, and
the effect on the state file. -/
structure SeqCheckResult where
  status : Nat
  msgs : List Msg
  effect : FileEffect
  deriving DecidableEq, Repr

/-- Python's `\s` class (also the default `strip()` set):
space, tab, newline, carriage return, form feed, vertical tab. -/
def isPyWs (c : Char) : Bool :=
  c == ' ' || c == '\t' || c == '\n' || c == '\r' || c == '\x0c' || c == '\x0b'

/-- Prefix test on character lists. -/
def startsWithChars : List Char → List Char → Bool
  | _, [] => true
  | [], _ :: _ => false
  | c :: cs, p :: ps => c == p && startsWithChars cs ps

/-- Python `str.strip()`: drop `\s` characters from both ends. -/
def stripChars (cs : List Char) : List Char :=
  ((cs.dropWhile isPyWs).reverse.dropWhile isPyWs).reverse

/-- `split('.')[0]`: the portion of a hostname before the first dot. -/
def shortName (s : String) : String := ⟨s.data.takeWhile (fun c => c != '.')⟩

/-- Python `str.lower()` on the ASCII hostnames compared here. -/
def lowerString (s : String) : String := ⟨s.data.map Char.toLower⟩

/-- `"\n".join(stdout)` as a character stream. -/
def joinChars : List String → List Char
  | [] => []
  | [l] => l.data
  | l :: rest => l.data ++ '\n' :: joinChars rest

/-- The capture of `\s*(.+)$` applied (with `.strip()`) to the text `v`
following the colon, `.` not matching newlines: the greedy `\s*` consumes
the maximal whitespace run (newlines included, since the pattern runs over
the joined stdout), so when a non-whitespace character follows, the
capture is from it to the end of its line, then stripped. When `v` is
whitespace only, backtracking lets `(.+)` match at least one non-newline
whitespace character (any such run ends at a line boundary, satisfying
`$`), and `strip()` of that capture is empty; with only newlines left
there is no match at this position. -/
def schedulerValueFrom (v : List Char) : Option (List Char) :=
  let w := v.dropWhile isPyWs
  match w with
  | [] => if v.any (fun c => c != '\n') then some [] else none
  | _ :: _ => some (stripChars (w.takeWhile (fun c => c != '\n')))

/-- One attempted match of `^scheduler name\s*:\s*(.+)$` at a line start
of the joined stdout, `cs` being the whole remaining text from that
position on: the literal, then optional whitespace (crossing newlines),
then the colon, then the captured value. -/
def matchSchedulerAt (cs : List Char) : Option (List Char) :=
  let pat := "scheduler name".data
  if startsWithChars cs pat then
    match (cs.drop pat.length).dropWhile isPyWs with
    | ':' :: v => schedulerValueFrom v
    | _ => none
  else none

/-- `scheduler_regex.search` over `"\n".join(stdout)` with `re.MULTILINE`:
`^` restricts candidate positions to line starts, tried left to right
(leftmost match wins); each attempt sees the whole remaining joined text,
so `\s*` may span line breaks. The result is `match.group(1).strip()`. -/
def findSchedulerName : List String → Option String
  | [] => none
  | l :: rest =>
    match matchSchedulerAt (joinChars (l :: rest)) with
    | some v => some ⟨v⟩
    | none => findSchedulerName rest

example : findSchedulerName ["scheduler name", ": node1"] = some "node1" := by decide

example : findSchedulerName ["scheduler name :   ", "node9"] = some "node9" := by decide

example : findSchedulerName ["scheduler name :"] = none := by decide

example : findSchedulerName ["junk", "scheduler name :  "] = some "" := by decide

/-- Embedding of `is_scheduler_node()` (lines 222-266). Inputs are the
outcome of `samcli system` (stderr text on non-zero exit, stdout lines on
success) and of `socket.gethostname()`. Returns the Python triple
`(is_scheduler, scheduler_name, error)`. -/
def is_scheduler_node (cmdRes : Except String (List String))
    (hostRes : Except String String) : Bool × Option String × Option String :=
  match cmdRes with
  | .error e => (false, none, some ("Failed to execute samcli system: " ++ e))
  | .ok stdout =>
    match findSchedulerName stdout with
    | none => (false, none, some "Could not parse scheduler name from samcli system output")
    | some schedulerName =>
      match hostRes with
      | .error e => (false, some schedulerName, some ("Could not get current hostname: " ++ e))
      | .ok currentHostname =>
        (lowerString (shortName schedulerName) == lowerString (shortName currentHostname),
         some schedulerName, none)

/-- Embedding of `check_sequences` (lines 545-742). Inputs model the
external world: the `samcli system` and `socket.gethostname()` results fed
to `is_scheduler_node`, whether the state file exists and whether
`os.unlink` succeeds (not-scheduler path), the outcome of
`samcli debug seq -c` with its stdout already segmented by `fs_regex` into
match data, and the state returned by `load_sequence_state`. -/
def check_sequences (args : SeqArgs) (now : Int)
    (sysCmd : Except String (List String)) (hostRes : Except String String)
    (stateFileExists : Bool) (unlinkOk : Bool)
    (seqCmd : Except String (List FsBlock)) (prior : SeqState) : SeqCheckResult :=
  let r := is_scheduler_node sysCmd hostRes
  match r.2.2 with
  | some e => ⟨NRPE_EXIT_WARN, [.warnNoScheduler e], .untouched⟩
  | none =>
    if !r.1 then
      if stateFileExists then
        if unlinkOk then
          ⟨NRPE_EXIT_OK, [.okNotSchedulerRemoved r.2.1], .removed⟩
        else
          ⟨NRPE_EXIT_OK, [.okNotSchedulerRemoveFailed r.2.1], .untouched⟩
      else
        ⟨NRPE_EXIT_OK, [.okNotScheduler r.2.1], .untouched⟩
    else
      match seqCmd with
      | .error e => ⟨NRPE_EXIT_CRIT, [.critSeqCmdFailed e], .untouched⟩
      | .ok blocks =>
        let acc := runBlocks args now ⟨prior, [], NRPE_EXIT_OK, []⟩ blocks
        if blocks.isEmpty then
          ⟨NRPE_EXIT_CRIT, acc.msgs ++ [.critNoFilesystems], .untouched⟩
        else
          let final := acc.state.filter (fun p => acc.seen.contains p.1)
          ⟨acc.status, acc.msgs, .written final⟩

/-- The JSON documents exchanged with the state file. Numbers are the
integers the script stores (timestamps and sequence numbers); `null`
models Python `None` for an absent `current_fs_seq`. -/
inductive Json where
  | str (s : String)
  | num (n : Int)
  | null
  | obj (fields : List (String × Json))

/-- Object field access by key (first occurrence). -/
def getField (fields : List (String × Json)) (k : String) : Option Json :=
  (fields.find? (fun p => p.1 == k)).map (·.2)

/-- The JSON object `json.dump` writes for one monitor sub-record, with
the insertion order of the source dict literals (lines 637-638, 655-660). -/
def encodeMonitor : MonitorState → Json
  | .not_blocked => .obj [("status", .str "not_blocked")]
  | .blocked since inode reason =>
    .obj [("status", .str "blocked"), ("blocked_since", .num since),
          ("inode", .str inode), ("reason", .str reason)]

/-- The JSON object written for one filesystem record (insertion order of
lines 633-639). -/
def encodeRecord (r : FsRecord) : Json :=
  .obj [("fsid", .str r.fsid), ("last_check", .num r.last_check),
        ("current_fs_seq", match r.current_fs_seq with
                           | none => .null
                           | some n => .num n),
        ("arfind", encodeMonitor r.arfind), ("stfind", encodeMonitor r.stfind)]

/-- `save_sequence_state(state)`: the JSON document written (atomically,
under an exclusive lock) to the state file. The I/O mechanics are outside
the embedding; the document content is what `json.dump(state, f)` emits. -/
def save_sequence_state (s : SeqState) : Json :=
  .obj (s.map (fun p => (p.1, encodeRecord p.2)))

/-- Parse one monitor sub-record of either persisted shape. -/
def decodeMonitor : Json → Option MonitorState
  | .obj fields =>
    match getField fields "status" with
    | some (.str "not_blocked") => some .not_blocked
    | some (.str "blocked") =>
      match getField fields "blocked_since", getField fields "inode",
            getField fields "reason" with
      | some (.num since), some (.str inode), some (.str reason) =>
        some (.blocked since inode reason)
      | _, _, _ => none
    | _ => none
  | _ => none

/-- Parse one filesystem record. -/
def decodeRecord : Json → Option FsRecord
  | .obj fields =>
    match getField fields "fsid", getField fields "last_check",
          getField fields "arfind", getField fields "stfind" with
    | some (.str fsid), some (.num lastCheck), some ja, some js =>
      match decodeMonitor ja, decodeMonitor js with
      | some ar, some st =>
        match getField fields "current_fs_seq" with
        | some (.num n) => some ⟨fsid, lastCheck, some n, ar, st⟩
        | some .null => some ⟨fsid, lastCheck, none, ar, st⟩
        | _ => none
      | _, _ => none
    | _, _, _, _ => none
  | _ => none

/-- Parse the entries of the top-level state object. -/
def decodeEntries : List (String × Json) → Option SeqState
  | [] => some []
  | (m, j) :: rest =>
    match decodeRecord j, decodeEntries rest with
    | some r, some s => some ((m, r) :: s)
    | _, _ => none

/-- Parse a whole persisted state document. -/
def decodeState : Json → Option SeqState
  | .obj fields => decodeEntries fields
  | _ => none

/-- `load_sequence_state()`: a missing file yields `{}` (line 270-271); a
document that does not parse as a persisted state models the
`json.JSONDecodeError` branch and also yields `{}` (lines 283-286); an
intact document yields the state it encodes. -/
def load_sequence_state (file : Option Json) : SeqState :=
  match file with
  | none => []
  | some j =>
    match decodeState j with
    | some s => s
    | none => []

example :
    load_sequence_state (some (save_sequence_state
      [("/mnt", ⟨"f00", 10, some 5, .blocked 3 "42" "waiting on lock", .not_blocked⟩)]))
      = [("/mnt", ⟨"f00", 10, some 5, .blocked 3 "42" "waiting on lock", .not_blocked⟩)] := by
  decide

/-- A filesystem block body in which neither monitor shape matches and no
sequence number is present. -/
def quietContent : BlockContent := ⟨⟨none, false⟩, ⟨none, false⟩, none⟩

/-- Arguments with a `--mount /a` filter and the default thresholds. -/
def stalePruneArgs : SeqArgs := ⟨some "/a", 300, 600, 300, 600⟩

/-- A prior persisted state holding records for mounts `/a` and `/b`. -/
def stalePrunePrior : SeqState :=
  [("/a", ⟨"f1", 0, none, .not_blocked, .not_blocked⟩),
   ("/b", ⟨"f2", 0, none, .not_blocked, .not_blocked⟩)]

/-- A diagnostic output in which both `/a` and `/b` are present. -/
def stalePruneBlocks : List FsBlock :=
  [⟨"f1", "/a", quietContent⟩, ⟨"f2", "/b", quietContent⟩]

/-- Normal form of the blocked branch when the prior state is not blocked
on the observed inode: the clock restarts and the duration is 0. -/
theorem processMonitor_new_block (kind : MonitorKind) (w c now : Int)
    (mount : String) (prior : MonitorState) (y rsn : String) (nb : Bool)
    (h : prior.blockedOn y = false) :
    processMonitor kind w c now mount prior ⟨some (y, rsn), nb⟩
      = if (0 : Int) ≥ c then
          ⟨.blocked now y rsn, [.critMonitorBlocked kind 0 mount y rsn], NRPE_EXIT_CRIT⟩
        else if (0 : Int) ≥ w then
          ⟨.blocked now y rsn, [.warnMonitorBlocked kind 0 mount y rsn], NRPE_EXIT_WARN⟩
        else
          ⟨.blocked now y rsn, [.okMonitorBlockedUnder kind 0 mount], NRPE_EXIT_OK⟩ := by
  simp only [processMonitor, h, Bool.false_eq_true, if_false]

/-- Normal form of the blocked branch when the prior state is blocked on
the same inode: `blocked_since` is kept, only the reason is replaced, and
the duration is `now - since`. -/
theorem processMonitor_same_inode (kind : MonitorKind) (w c since now : Int)
    (mount y r0 rsn : String) (nb : Bool) :
    processMonitor kind w c now mount (.blocked since y r0) ⟨some (y, rsn), nb⟩
      = if now - since ≥ c then
          ⟨.blocked since y rsn, [.critMonitorBlocked kind (now - since) mount y rsn],
            NRPE_EXIT_CRIT⟩
        else if now - since ≥ w then
          ⟨.blocked since y rsn, [.warnMonitorBlocked kind (now - since) mount y rsn],
            NRPE_EXIT_WARN⟩
        else
          ⟨.blocked since y rsn, [.okMonitorBlockedUnder kind (now - since) mount],
            NRPE_EXIT_OK⟩ := by
  simp only [processMonitor, MonitorState.blockedOn, beq_self_eq_true, if_true]

/-- C1: a monitor observed blocked on inode `y` restarts the clock
(`blocked_since := now`, reported duration 0) whenever the prior persisted
state was not `blocked` on that same inode, and keeps the original
`blocked_since` (reporting `now - since`, updating only the reason) when
the prior state was blocked on the same inode. -/
theorem blocked_transition_since_semantics
    (kind : MonitorKind) (w c now : Int) (mount : String) (prior : MonitorState)
    (y rsn : String) (nb : Bool) :
    (prior.blockedOn y = false →
      (processMonitor kind w c now mount prior ⟨some (y, rsn), nb⟩).next
          = .blocked now y rsn ∧
      reportedDuration (processMonitor kind w c now mount prior ⟨some (y, rsn), nb⟩).msgs
          = some 0) ∧
    (∀ since r0, prior = .blocked since y r0 →
      (processMonitor kind w c now mount prior ⟨some (y, rsn), nb⟩).next
          = .blocked since y rsn ∧
      reportedDuration (processMonitor kind w c now mount prior ⟨some (y, rsn), nb⟩).msgs
          = some (now - since)) := by
  constructor
  · intro h
    rw [processMonitor_new_block kind w c now mount prior y rsn nb h]
    split <;> (try split) <;> simp [reportedDuration, Msg.durationOf]
  · rintro since r0 rfl
    rw [processMonitor_same_inode]
    split <;> (try split) <;> simp [reportedDuration, Msg.durationOf]

/-- Closed instance of `blocked_transition_since_semantics`: an inode
change resets the clock to 0, and the same inode keeps `since = 40` and
reports `100 - 40`. -/
theorem blocked_transition_since_semantics_witness :
    ((processMonitor .arfind 300 600 100 "/mnt" (.blocked 40 "9" "old")
        ⟨some ("7", "new"), false⟩).next = .blocked 100 "7" "new" ∧
      reportedDuration (processMonitor .arfind 300 600 100 "/mnt" (.blocked 40 "9" "old")
        ⟨some ("7", "new"), false⟩).msgs = some 0) ∧
    ((processMonitor .arfind 300 600 100 "/mnt" (.blocked 40 "7" "old")
        ⟨some ("7", "new"), false⟩).next = .blocked 40 "7" "new" ∧
      reportedDuration (processMonitor .arfind 300 600 100 "/mnt" (.blocked 40 "7" "old")
        ⟨some ("7", "new"), false⟩).msgs = some (100 - 40)) :=
  ⟨(blocked_transition_since_semantics .arfind 300 600 100 "/mnt" (.blocked 40 "9" "old")
      "7" "new" false).1 (by decide),
   (blocked_transition_since_semantics .arfind 300 600 100 "/mnt" (.blocked 40 "7" "old")
      "7" "new" false).2 40 "old" rfl⟩

/-- C2: for any thresholds (including misconfigured `warn > crit`), a
monitor still blocked on the same inode with duration `d = now - since`
classifies crit-first: `d ≥ crit` is CRITICAL, otherwise `d ≥ warn` is
WARNING, otherwise OK; in particular `d = crit` is CRITICAL and never
WARNING. -/
theorem threshold_classification_crit_first
    (kind : MonitorKind) (w c since now : Int) (mount y r0 rsn : String) (nb : Bool) :
    (now - since ≥ c →
      (processMonitor kind w c now mount (.blocked since y r0) ⟨some (y, rsn), nb⟩).status
          = NRPE_EXIT_CRIT ∧
      (processMonitor kind w c now mount (.blocked since y r0) ⟨some (y, rsn), nb⟩).msgs
          = [.critMonitorBlocked kind (now - since) mount y rsn]) ∧
    (now - since < c → now - since ≥ w →
      (processMonitor kind w c now mount (.blocked since y r0) ⟨some (y, rsn), nb⟩).status
          = NRPE_EXIT_WARN ∧
      (processMonitor kind w c now mount (.blocked since y r0) ⟨some (y, rsn), nb⟩).msgs
          = [.warnMonitorBlocked kind (now - since) mount y rsn]) ∧
    (now - since < c → now - since < w →
      (processMonitor kind w c now mount (.blocked since y r0) ⟨some (y, rsn), nb⟩).status
          = NRPE_EXIT_OK ∧
      (processMonitor kind w c now mount (.blocked since y r0) ⟨some (y, rsn), nb⟩).msgs
          = [.okMonitorBlockedUnder kind (now - since) mount]) ∧
    (now - since = c →
      (processMonitor kind w c now mount (.blocked since y r0) ⟨some (y, rsn), nb⟩).status
          = NRPE_EXIT_CRIT ∧
      (processMonitor kind w c now mount (.blocked since y r0) ⟨some (y, rsn), nb⟩).status
          ≠ NRPE_EXIT_WARN) := by
  rw [processMonitor_same_inode]
  refine ⟨?_, ?_, ?_, ?_⟩
  · intro h
    rw [if_pos h]
    exact ⟨rfl, rfl⟩
  · intro h1 h2
    rw [if_neg (by omega), if_pos h2]
    exact ⟨rfl, rfl⟩
  · intro h1 h2
    rw [if_neg (by omega), if_neg (by omega)]
    exact ⟨rfl, rfl⟩
  · intro h
    rw [if_pos (by omega)]
    exact ⟨rfl, by simp [NRPE_EXIT_CRIT, NRPE_EXIT_WARN]⟩

/-- Closed instance of `threshold_classification_crit_first` with the
misconfiguration `warn = 900 > crit = 600` and duration exactly `crit`:
CRITICAL wins the tie. -/
theorem threshold_classification_crit_first_witness :
    (processMonitor .stfind 900 600 700 "/mnt" (.blocked 100 "7" "r") ⟨some ("7", "r"), false⟩).status
        = NRPE_EXIT_CRIT ∧
    (processMonitor .stfind 900 600 700 "/mnt" (.blocked 100 "7" "r") ⟨some ("7", "r"), false⟩).status
        ≠ NRPE_EXIT_WARN :=
  (threshold_classification_crit_first .stfind 900 600 100 700 "/mnt" "7" "r" "r" false).2.2.2
    (by decide)

/-- C4: when neither monitor regex matches the block content, the
monitor's persisted sub-record is returned untouched with no message and
an OK status contribution; when only the explicit not-blocked shape
matches, the state is forced to `not_blocked` regardless of the prior
state. -/
theorem absent_frame_and_not_blocked_force
    (kind : MonitorKind) (w c now : Int) (mount : String) (prior : MonitorState) :
    processMonitor kind w c now mount prior ⟨none, false⟩ = ⟨prior, [], NRPE_EXIT_OK⟩ ∧
    processMonitor kind w c now mount prior ⟨none, true⟩
      = ⟨.not_blocked, [.okMonitorNotBlocked kind mount], NRPE_EXIT_OK⟩ :=
  ⟨rfl, rfl⟩

/-- C10: when the blocked shape and the explicit not-blocked shape both
match for the same monitor, the blocked branch wins: the result is
identical to the one with no not-blocked match, the next state is blocked
on the captured inode, and a threshold-evaluation message (carrying a
duration) is emitted. -/
theorem blocked_shape_takes_precedence
    (kind : MonitorKind) (w c now : Int) (mount : String) (prior : MonitorState)
    (i r : String) :
    processMonitor kind w c now mount prior ⟨some (i, r), true⟩
        = processMonitor kind w c now mount prior ⟨some (i, r), false⟩ ∧
    (processMonitor kind w c now mount prior ⟨some (i, r), true⟩).next.inodeOf = some i ∧
    (reportedDuration (processMonitor kind w c now mount prior ⟨some (i, r), true⟩).msgs).isSome
        = true := by
  refine ⟨rfl, ?_, ?_⟩ <;>
  · rcases prior with _ | ⟨since, pi, pr⟩
    · rw [processMonitor_new_block kind w c now mount .not_blocked i r true rfl]
      split <;> (try split) <;>
        simp [MonitorState.inodeOf, reportedDuration, Msg.durationOf]
    · by_cases hpi : pi = i
      · subst hpi
        rw [processMonitor_same_inode]
        split <;> (try split) <;>
          simp [MonitorState.inodeOf, reportedDuration, Msg.durationOf]
      · rw [processMonitor_new_block kind w c now mount (.blocked since pi pr) i r true
          (by simp [MonitorState.blockedOn, hpi])]
        split <;> (try split) <;>
          simp [MonitorState.inodeOf, reportedDuration, Msg.durationOf]

/-- C8: on a successful cluster-status command, absence of the
`scheduler name : <value>` pattern yields an error result (never a
non-error "not scheduler"); when the pattern is present and the hostname
lookup succeeds, there is no error and `is_scheduler` holds exactly when
the short forms (before the first dot) of the reported and local hostnames
match case-insensitively. -/
theorem scheduler_short_name_resolution (lines : List String) (host : String) :
    (findSchedulerName lines = none →
      is_scheduler_node (.ok lines) (.ok host)
        = (false, none, some "Could not parse scheduler name from samcli system output")) ∧
    (∀ name, findSchedulerName lines = some name →
      is_scheduler_node (.ok lines) (.ok host)
        = (lowerString (shortName name) == lowerString (shortName host), some name, none)) := by
  constructor
  · intro h
    simp [is_scheduler_node, h]
  · intro name h
    simp [is_scheduler_node, h]

/-- Closed instance of `scheduler_short_name_resolution`: the FQDN
`Node1.cluster.local` matches the short local hostname `NODE1`
case-insensitively, pattern-free output is an error, and a match
spanning two stdout lines (the `\s*` of the pattern crossing the line
break) still extracts the scheduler name. -/
theorem scheduler_short_name_resolution_witness :
    is_scheduler_node (.ok ["junk line", "scheduler name : Node1.cluster.local"]) (.ok "NODE1")
        = (true, some "Node1.cluster.local", none) ∧
    is_scheduler_node (.ok ["no pattern here"]) (.ok "NODE1")
        = (false, none, some "Could not parse scheduler name from samcli system output") ∧
    is_scheduler_node (.ok ["scheduler name", ": node1"]) (.ok "node1.cluster.local")
        = (true, some "node1", none) := by
  refine ⟨?_, ?_, ?_⟩
  · rw [(scheduler_short_name_resolution
      ["junk line", "scheduler name : Node1.cluster.local"] "NODE1").2
      "Node1.cluster.local" (by decide)]
    decide
  · exact (scheduler_short_name_resolution ["no pattern here"] "NODE1").1 (by decide)
  · rw [(scheduler_short_name_resolution
      ["scheduler name", ": node1"] "node1.cluster.local").2 "node1" (by decide)]
    decide

/-- Decoding inverts encoding for a monitor sub-record. -/
theorem decodeMonitor_encodeMonitor (ms : MonitorState) :
    decodeMonitor (encodeMonitor ms) = some ms := by
  cases ms <;> rfl

/-- Decoding inverts encoding for a filesystem record. -/
theorem decodeRecord_encodeRecord (r : FsRecord) :
    decodeRecord (encodeRecord r) = some r := by
  obtain ⟨fsid, lastCheck, seq, ar, st⟩ := r
  cases seq <;> cases ar <;> cases st <;> rfl

/-- Decoding inverts encoding entry by entry. -/
theorem decodeEntries_map_encodeRecord (s : SeqState) :
    decodeEntries (s.map (fun p => (p.1, encodeRecord p.2))) = some s := by
  induction s with
  | nil => rfl
  | cons hd tl ih =>
    simp [decodeEntries, decodeRecord_encodeRecord, ih]

/-- C9: for any persisted state whose mounts are distinct (it is a
mapping) and whose entries are valid records, saving and then loading
returns a state equal to the original. -/
theorem state_save_load_roundtrip (s : SeqState) (_mapping : (keysOf s).Nodup) :
    load_sequence_state (some (save_sequence_state s)) = s := by
  simp [load_sequence_state, save_sequence_state, decodeState,
    decodeEntries_map_encodeRecord]

/-- Closed instance of `state_save_load_roundtrip` on a two-mount state
with one blocked and one not-blocked monitor shape. -/
theorem state_save_load_roundtrip_witness :
    (keysOf [("/mnt/a", (⟨"f1", 10, some 5, .blocked 3 "42" "waiting on lock", .not_blocked⟩ : FsRecord)),
             ("/mnt/b", (⟨"f2", 11, none, .not_blocked, .blocked 7 "9" "slow"⟩ : FsRecord))]).Nodup ∧
    load_sequence_state (some (save_sequence_state
      [("/mnt/a", ⟨"f1", 10, some 5, .blocked 3 "42" "waiting on lock", .not_blocked⟩),
       ("/mnt/b", ⟨"f2", 11, none, .not_blocked, .blocked 7 "9" "slow"⟩)]))
      = [("/mnt/a", ⟨"f1", 10, some 5, .blocked 3 "42" "waiting on lock", .not_blocked⟩),
         ("/mnt/b", ⟨"f2", 11, none, .not_blocked, .blocked 7 "9" "slow"⟩)] :=
  ⟨by decide,
   state_save_load_roundtrip
     [("/mnt/a", ⟨"f1", 10, some 5, .blocked 3 "42" "waiting on lock", .not_blocked⟩),
      ("/mnt/b", ⟨"f2", 11, none, .not_blocked, .blocked 7 "9" "slow"⟩)] (by decide)⟩

/-- C7: whenever the scheduler resolver reports an error (command
failure, unparsable output, or hostname lookup failure), the check
returns WARNING with the single corresponding message and the state file
is untouched; the result does not depend on the state file, the unlink
outcome, the diagnostic command, or the loaded prior state, so none of
them is consulted. -/
theorem resolver_error_warns_untouched (args : SeqArgs) (now : Int)
    (sysCmd : Except String (List String)) (hostRes : Except String String)
    (ex u : Bool) (seqCmd : Except String (List FsBlock)) (prior : SeqState)
    (e : String) (h : (is_scheduler_node sysCmd hostRes).2.2 = some e) :
    check_sequences args now sysCmd hostRes ex u seqCmd prior
      = ⟨NRPE_EXIT_WARN, [.warnNoScheduler e], .untouched⟩ := by
  simp [check_sequences, h]

/-- Closed instance of `resolver_error_warns_untouched` at a failed
cluster-status command. -/
theorem resolver_error_warns_untouched_witness :
    check_sequences ⟨none, 300, 600, 300, 600⟩ 100 (.error "boom") (.ok "n1") true true
        (.ok []) []
      = ⟨NRPE_EXIT_WARN, [.warnNoScheduler "Failed to execute samcli system: boom"],
          .untouched⟩ :=
  resolver_error_warns_untouched ⟨none, 300, 600, 300, 600⟩ 100 (.error "boom") (.ok "n1")
    true true (.ok []) [] "Failed to execute samcli system: boom" (by decide)

/-- C6: when the resolver succeeds and the local node is not the
scheduler, the check returns OK with one informational message naming the
reported scheduler; the state file is deleted when it exists (still OK
when it is already absent or when the unlink fails), and the result does
not depend on the diagnostic command or the loaded prior state. -/
theorem not_scheduler_ok_deletes_state (args : SeqArgs) (now : Int)
    (sysCmd : Except String (List String)) (hostRes : Except String String)
    (ex u : Bool) (seqCmd : Except String (List FsBlock)) (prior : SeqState)
    (name : String) (h : is_scheduler_node sysCmd hostRes = (false, some name, none)) :
    check_sequences args now sysCmd hostRes ex u seqCmd prior
      = if ex then
          if u then ⟨NRPE_EXIT_OK, [.okNotSchedulerRemoved (some name)], .removed⟩
          else ⟨NRPE_EXIT_OK, [.okNotSchedulerRemoveFailed (some name)], .untouched⟩
        else ⟨NRPE_EXIT_OK, [.okNotScheduler (some name)], .untouched⟩ := by
  simp only [check_sequences, h]
  cases ex <;> cases u <;> rfl

/-- Closed instance of `not_scheduler_ok_deletes_state`: scheduler
`node1.cluster.local` reported, local host `node2`; with the file present
it is removed, with it absent the run is still OK. -/
theorem not_scheduler_ok_deletes_state_witness :
    check_sequences ⟨none, 300, 600, 300, 600⟩ 100
        (.ok ["scheduler name : node1.cluster.local"]) (.ok "node2") true true (.ok []) []
      = ⟨NRPE_EXIT_OK, [.okNotSchedulerRemoved (some "node1.cluster.local")], .removed⟩ ∧
    check_sequences ⟨none, 300, 600, 300, 600⟩ 100
        (.ok ["scheduler name : node1.cluster.local"]) (.ok "node2") false true (.ok []) []
      = ⟨NRPE_EXIT_OK, [.okNotScheduler (some "node1.cluster.local")], .untouched⟩ := by
  constructor
  · rw [not_scheduler_ok_deletes_state ⟨none, 300, 600, 300, 600⟩ 100
      (.ok ["scheduler name : node1.cluster.local"]) (.ok "node2") true true (.ok []) []
      "node1.cluster.local" (by decide)]
    decide
  · rw [not_scheduler_ok_deletes_state ⟨none, 300, 600, 300, 600⟩ 100
      (.ok ["scheduler name : node1.cluster.local"]) (.ok "node2") false true (.ok []) []
      "node1.cluster.local" (by decide)]
    decide

/-- C5: on the scheduler node, a successful diagnostic command whose
output yields zero filesystem-block matches is a CRITICAL
(`No filesystems found in sequence output`) with the state file
untouched; and whenever at least one block matched — even if the
`--mount` filter excludes every block — that CRITICAL path is not taken
and the run reaches the write-back step instead. -/
theorem zero_blocks_critical_no_save (args : SeqArgs) (now : Int)
    (sysCmd : Except String (List String)) (hostRes : Except String String)
    (ex u : Bool) (prior : SeqState) (name : Option String)
    (h : is_scheduler_node sysCmd hostRes = (true, name, none)) :
    check_sequences args now sysCmd hostRes ex u (.ok []) prior
      = ⟨NRPE_EXIT_CRIT, [.critNoFilesystems], .untouched⟩ ∧
    (∀ blocks : List FsBlock, blocks ≠ [] →
      ∃ final, (check_sequences args now sysCmd hostRes ex u (.ok blocks) prior).effect
        = .written final) := by
  constructor
  · simp [check_sequences, h, runBlocks]
  · intro blocks hne
    have hemp : blocks.isEmpty = false := by
      cases blocks with
      | nil => exact absurd rfl hne
      | cons b bs => rfl
    simp only [check_sequences, h, hemp, Bool.false_eq_true, if_false]
    exact ⟨_, rfl⟩

/-- Closed instance of `zero_blocks_critical_no_save`: zero
blocks are CRITICAL with no write, while one block that the `--mount`
filter excludes still reaches the write-back step. -/
theorem zero_blocks_critical_no_save_witness :
    check_sequences ⟨some "/other", 300, 600, 300, 600⟩ 100
        (.ok ["scheduler name : n1"]) (.ok "n1") true true (.ok []) []
      = ⟨NRPE_EXIT_CRIT, [.critNoFilesystems], .untouched⟩ ∧
    (∃ final,
      (check_sequences ⟨some "/other", 300, 600, 300, 600⟩ 100
          (.ok ["scheduler name : n1"]) (.ok "n1") true true
          (.ok [⟨"f1", "/mnt", ⟨⟨none, false⟩, ⟨none, false⟩, none⟩⟩]) []).effect
        = .written final) :=
  ⟨(zero_blocks_critical_no_save ⟨some "/other", 300, 600, 300, 600⟩ 100
      (.ok ["scheduler name : n1"]) (.ok "n1") true true [] (some "n1") (by decide)).1,
   (zero_blocks_critical_no_save ⟨some "/other", 300, 600, 300, 600⟩ 100
      (.ok ["scheduler name : n1"]) (.ok "n1") true true [] (some "n1") (by decide)).2
     [⟨"f1", "/mnt", ⟨⟨none, false⟩, ⟨none, false⟩, none⟩⟩] (by simp)⟩

/-- Dict assignment preserves existing keys and introduces the assigned
one. -/
theorem mem_keysOf_updateState (s : SeqState) (m : String) (r : FsRecord) (m2 : String) :
    m2 ∈ keysOf (updateState s m r) ↔ m2 ∈ keysOf s ∨ m2 = m := by
  induction s with
  | nil => simp [updateState, keysOf]
  | cons hd tl ih =>
    obtain ⟨k, v⟩ := hd
    simp only [updateState]
    split
    · next hk =>
      rw [show k = m from by simpa using hk]
      simp only [keysOf, List.map_cons, List.mem_cons]
      tauto
    · simp only [keysOf, List.map_cons, List.mem_cons] at ih ⊢
      rw [ih]
      tauto

/-- A lookup succeeds exactly on the dict's keys. -/
theorem lookupState_isSome_iff (s : SeqState) (m : String) :
    (lookupState s m).isSome ↔ m ∈ keysOf s := by
  induction s with
  | nil => simp [lookupState, keysOf]
  | cons hd tl ih =>
    obtain ⟨k, v⟩ := hd
    simp only [lookupState, keysOf, List.map_cons, List.mem_cons]
    split
    · next hk =>
      simp [show m = k from by simpa using (eq_of_beq hk).symm]
    · next hk =>
      rw [show (m = k) ↔ False from by simp [Ne.symm (by simpa using hk)], ih]
      simp [keysOf]

/-- Stale-entry pruning: a lookup on the filtered dict succeeds exactly
when it succeeded before and the key is in `seen_mounts`. -/
theorem lookupState_filter_seen (seen : List String) (s : SeqState) (m : String) :
    (lookupState (s.filter (fun p => seen.contains p.1)) m).isSome
      ↔ (lookupState s m).isSome ∧ m ∈ seen := by
  induction s with
  | nil => simp [lookupState]
  | cons hd tl ih =>
    obtain ⟨k, v⟩ := hd
    have hfc : List.filter (fun p => seen.contains p.1) ((k, v) :: tl)
        = (if seen.contains k = true then
            (k, v) :: List.filter (fun p => seen.contains p.1) tl
          else List.filter (fun p => seen.contains p.1) tl) := List.filter_cons
    by_cases hmem : k ∈ seen
    · have hc : seen.contains k = true := List.elem_iff.mpr hmem
      rw [hfc, hc, if_pos rfl]
      by_cases hk : k = m
      · subst hk
        simp [lookupState, hmem]
      · have hbk : (k == m) = false := by simpa using hk
        simp only [lookupState, hbk, Bool.false_eq_true, if_false]
        exact ih
    · have hc : seen.contains k = false := by
        cases hcc : seen.contains k
        · rfl
        · exact absurd (List.elem_iff.mp hcc) hmem
      rw [hfc, hc, if_neg (by simp)]
      by_cases hk : k = m
      · subst hk
        rw [ih]
        simp [lookupState, hmem]
      · have hbk : (k == m) = false := by simpa using hk
        simp only [lookupState, hbk, Bool.false_eq_true, if_false]
        exact ih

/-- The `seen_mounts` set accumulated by a run is the filter-passing
mounts of the processed blocks, in order. -/
theorem seen_runBlocks (args : SeqArgs) (now : Int) (blocks : List FsBlock) :
    ∀ acc : RunAcc, (runBlocks args now acc blocks).seen
      = acc.seen ++ seenMountsOf args.mount blocks := by
  induction blocks with
  | nil => intro acc; simp [runBlocks, seenMountsOf]
  | cons b rest ih =>
    intro acc
    simp only [runBlocks]
    rw [ih]
    cases hsk : skipBlock args.mount b.mount
    · simp [stepBlock, hsk, processBlockBody, seenMountsOf, List.filter_cons]
    · simp [stepBlock, hsk, seenMountsOf, List.filter_cons]

/-- The keys of the state dict after a run are the prior keys together
with the processed mounts. -/
theorem mem_keysOf_runBlocks (args : SeqArgs) (now : Int) (blocks : List FsBlock)
    (m : String) :
    ∀ acc : RunAcc, m ∈ keysOf (runBlocks args now acc blocks).state
      ↔ m ∈ keysOf acc.state ∨ m ∈ seenMountsOf args.mount blocks := by
  induction blocks with
  | nil => intro acc; simp [runBlocks, seenMountsOf]
  | cons b rest ih =>
    intro acc
    simp only [runBlocks]
    rw [ih]
    cases hsk : skipBlock args.mount b.mount
    · simp only [stepBlock, hsk, Bool.false_eq_true, if_false]
      simp only [processBlockBody]
      rw [mem_keysOf_updateState]
      simp [seenMountsOf, List.filter_cons, hsk]
      tauto
    · simp only [stepBlock, hsk, if_true]
      simp [seenMountsOf, List.filter_cons, hsk]

/-- C3 counterexample: with the `--mount /a` filter, mount `/b` is present
among the filesystems of the current diagnostic output and present in the
prior state, yet its entry is removed before the write-back. -/
theorem stale_prune_drops_present_filtered_mount :
    "/b" ∈ stalePruneBlocks.map FsBlock.mount ∧
    (lookupState stalePrunePrior "/b").isSome = true ∧
    (check_sequences stalePruneArgs 100 (.ok ["scheduler name : n1"]) (.ok "n1") true true
        (.ok stalePruneBlocks) stalePrunePrior).effect
      = .written [("/a", ⟨"f1", 100, none, .not_blocked, .not_blocked⟩)] ∧
    lookupState [("/a", (⟨"f1", 100, none, .not_blocked, .not_blocked⟩ : FsRecord))] "/b"
      = none := by
  decide

/-- C3 amended: when the write-back step is reached, exactly the state
entries whose mount was not processed in this run (present in the
diagnostic output and passing the `--mount` filter) are removed, and an
entry survives the write-back precisely when its mount was processed;
with no `--mount` filter, processed coincides with present in the
output. -/
theorem prune_retains_exactly_processed_mounts (args : SeqArgs) (now : Int)
    (sysCmd : Except String (List String)) (hostRes : Except String String)
    (ex u : Bool) (blocks : List FsBlock) (prior : SeqState) (name : Option String)
    (h : is_scheduler_node sysCmd hostRes = (true, name, none)) (hne : blocks ≠ []) :
    ∃ final, (check_sequences args now sysCmd hostRes ex u (.ok blocks) prior).effect
        = .written final ∧
      ∀ m, (lookupState final m).isSome ↔ m ∈ seenMountsOf args.mount blocks := by
  have hemp : blocks.isEmpty = false := by
    cases blocks with
    | nil => exact absurd rfl hne
    | cons b bs => rfl
  simp only [check_sequences, h, hemp, Bool.false_eq_true, if_false]
  refine ⟨_, rfl, ?_⟩
  intro m
  rw [lookupState_filter_seen, seen_runBlocks, lookupState_isSome_iff, mem_keysOf_runBlocks]
  simp only [List.nil_append, keysOf]
  constructor
  · rintro ⟨_, hm⟩
    exact hm
  · intro hm
    exact ⟨Or.inr hm, hm⟩

/-- Closed instance of `prune_retains_exactly_processed_mounts` at a
one-block run with no filter. -/
theorem prune_retains_exactly_processed_mounts_witness :
    (check_sequences ⟨none, 300, 600, 300, 600⟩ 100 (.ok ["scheduler name : n1"]) (.ok "n1")
        true true (.ok [⟨"f1", "/a", quietContent⟩]) []).effect
      = .written [("/a", ⟨"f1", 100, none, .not_blocked, .not_blocked⟩)] ∧
    ((lookupState [("/a", (⟨"f1", 100, none, .not_blocked, .not_blocked⟩ : FsRecord))] "/a").isSome
      ↔ "/a" ∈ seenMountsOf none [⟨"f1", "/a", quietContent⟩]) := by
  obtain ⟨f, h1, h2⟩ := prune_retains_exactly_processed_mounts ⟨none, 300, 600, 300, 600⟩ 100
    (.ok ["scheduler name : n1"]) (.ok "n1") true true [⟨"f1", "/a", quietContent⟩] []
    (some "n1") (by decide) (by simp)
  have hf : f = [("/a", ⟨"f1", 100, none, .not_blocked, .not_blocked⟩)] := by
    have h3 : (check_sequences ⟨none, 300, 600, 300, 600⟩ 100 (.ok ["scheduler name : n1"])
        (.ok "n1") true true (.ok [⟨"f1", "/a", quietContent⟩]) []).effect
      = .written [("/a", ⟨"f1", 100, none, .not_blocked, .not_blocked⟩)] := by decide
    rw [h1] at h3
    injection h3
  rw [hf] at h1 h2
  exact ⟨h1, h2 "/a"⟩

end ScoutAM
